import Mathlib

/-!
Shallow embedding of the request layer of the `cli2jira` repository:
the validators of `utils.py`, the error classes of `exceptions.py`, and
the two request functions of `jira_api.py` (`make_api_request`,
`search_issues`).  Strings are modelled as `List Char`; the HTTP
transport is modelled as a function from the attempt index to the event
the `requests` call produces on that attempt.
-/

/-- Whitespace characters removed by Python's `str.strip()` (ASCII range). -/
def pySpace (c : Char) : Bool :=
  c == ' ' || c == '\t' || c == '\n' || c == '\r' || c == '\x0b' || c == '\x0c'

/-- Python `s.strip()`: drop leading and trailing whitespace. -/
def pyStrip (l : List Char) : List Char :=
  ((l.dropWhile pySpace).reverse.dropWhile pySpace).reverse

/-- Python `s.rstrip('/')`: drop every trailing `'/'` character. -/
def pyRstripSlash (l : List Char) : List Char :=
  (l.reverse.dropWhile (fun c => c == '/')).reverse

/-- Python `s.startswith(('http://', 'https://'))`. -/
def startsWithScheme (l : List Char) : Bool :=
  "http://".toList.isPrefixOf l || "https://".toList.isPrefixOf l

/-- The error classes of `exceptions.py` that the request layer can carry:
`JiraAuthError`, `JiraConnectionError`, `JiraAPIError` (with its resolved
`status_code`, `response_text` and `message` fields) and
`JiraValidationError` (with its `field` and the raw message passed in). -/
inductive JiraErr where
  | auth (message : List Char)
  | conn (message : List Char)
  | api (status : Nat) (response : List Char) (message : List Char)
  | validation (field : List Char) (message : List Char)
  deriving DecidableEq

/-- `str(e)` for a `JiraErr`: each class stores its message and passes it to
`Exception.__init__`; `JiraValidationError` formats
`"Validation error for {field}: {message}"` first. -/
def JiraErr.message : JiraErr → List Char
  | .auth m => m
  | .conn m => m
  | .api _ _ m => m
  | .validation f m => "Validation error for ".toList ++ f ++ ": ".toList ++ m

/-- The default message `JiraAPIError.__init__` builds when `message is None`:
`"Jira API error: {status_code} - {response_text}"`. -/
def jiraApiDefaultMsg (status : Nat) (text : List Char) : List Char :=
  "Jira API error: ".toList ++ Nat.toDigits 10 status ++ " - ".toList ++ text

/-- `utils.validate_url` (utils.py lines 203-215): reject only the genuinely
empty string (the emptiness test runs before `strip()`), then trim, prepend
`https://` when neither scheme prefix is present, and `rstrip('/')`. -/
def validate_url (url : List Char) : Except JiraErr (List Char) :=
  if url = [] then
    .error (.validation "url".toList "URL cannot be empty".toList)
  else
    let url1 := pyStrip url
    let url2 := if startsWithScheme url1 then url1 else "https://".toList ++ url1
    .ok (pyRstripSlash url2)

/-- `utils.validate_token` (utils.py lines 218-227): trim first, then reject
the empty trimmed token and tokens shorter than 10 characters. -/
def validate_token (token : List Char) : Except JiraErr (List Char) :=
  let t := pyStrip token
  if t = [] then
    .error (.validation "token".toList "Token cannot be empty".toList)
  else if t.length < 10 then
    .error (.validation "token".toList "Token appears to be too short".toList)
  else
    .ok t

/-- Whether a result is a raised `JiraValidationError`. -/
def isValidationFailure : Except JiraErr (List Char) → Bool
  | .error (.validation _ _) => true
  | _ => false

/- Helper lemmas about the string model. -/

theorem dropWhile_idem (p : α → Bool) (l : List α) :
    (l.dropWhile p).dropWhile p = l.dropWhile p := by
  induction l with
  | nil => rfl
  | cons a l ih =>
    by_cases h : p a
    · rw [List.dropWhile_cons_of_pos h]; exact ih
    · rw [List.dropWhile_cons_of_neg h, List.dropWhile_cons_of_neg h]

theorem pyRstripSlash_idem (l : List Char) :
    pyRstripSlash (pyRstripSlash l) = pyRstripSlash l := by
  unfold pyRstripSlash
  rw [List.reverse_reverse, dropWhile_idem]

theorem validate_url_ok_shape (url v : List Char) (h : validate_url url = .ok v) :
    pyRstripSlash v = v := by
  unfold validate_url at h
  by_cases he : url = []
  · simp [he] at h
  · simp only [he, if_false] at h
    injection h with h
    rw [← h, pyRstripSlash_idem]

/-- What the `requests` call of one attempt produces: either a response
(with its status code, `response.text`, and the value `response.json()`
returns) or one of the exception classes the `except` chain of
`jira_api.py` distinguishes. -/
inductive TransportEvent where
  | resp (status : Nat) (text : List Char) (body : List Char)
  | timeout
  | connFailure
  | sslFailure (msg : List Char)
  | httpFailure (status : Nat) (text : List Char)
  | requestFailure (msg : List Char)
  | otherFailure (msg : List Char)
  deriving DecidableEq

/-- What the `try` block of one attempt of `make_api_request` can raise:
the transport exceptions, the `JiraAuthError`/`JiraAPIError` raises of the
status-code classification, or the `ValueError` for an unsupported method. -/
inductive Raised where
  | jira (e : JiraErr)
  | valueErr (msg : List Char)
  | timeout
  | connFailure
  | sslFailure (msg : List Char)
  | httpFailure (status : Nat) (text : List Char)
  | requestFailure (msg : List Char)
  | otherFailure (msg : List Char)
  deriving DecidableEq

/-- The `try` block of one attempt of `make_api_request`
(jira_api.py lines 37-61): dispatch on the method, classify the status
code (401, 403, 404, >=400, 204, success), or propagate the transport
exception.  `Ok none` models the `return None` of the 204 branch. -/
def tryBody (endpoint method : List Char) (ev : TransportEvent) :
    Except Raised (Option (List Char)) :=
  if method = "GET".toList ∨ method = "POST".toList then
    match ev with
    | .resp status text body =>
      if status = 401 then
        .error (.jira (.auth "Invalid credentials. Please check your Jira token.".toList))
      else if status = 403 then
        .error (.jira (.auth "Access forbidden. Please check your permissions.".toList))
      else if status = 404 then
        .error (.jira (.api 404 text ("Resource not found: ".toList ++ endpoint)))
      else if 400 ≤ status then
        .error (.jira (.api status text (jiraApiDefaultMsg status text)))
      else if status = 204 then
        .ok none
      else
        .ok (some body)
    | .timeout => .error .timeout
    | .connFailure => .error .connFailure
    | .sslFailure m => .error (.sslFailure m)
    | .httpFailure s t => .error (.httpFailure s t)
    | .requestFailure m => .error (.requestFailure m)
    | .otherFailure m => .error (.otherFailure m)
  else
    .error (.valueErr ("Unsupported HTTP method: ".toList ++ method))

/-- The `except` chain of `make_api_request` (jira_api.py lines 63-78),
turning whatever the `try` block raised into the `last_exception` value.
A raised `JiraErr` or `ValueError` matches none of the `requests` clauses
and falls through to `except Exception`, which wraps it as
`JiraAPIError(500, str(e), "Unexpected error: " + str(e))`. -/
def exceptChain (verify_ssl : Bool) : Raised → JiraErr
  | .timeout => .conn "Request timed out. Please check your connection.".toList
  | .connFailure =>
      .conn "Failed to connect to Jira. Please check the URL and your network connection.".toList
  | .sslFailure m =>
      if verify_ssl then
        .conn "SSL certificate verification failed. Use --no-verify-ssl to bypass.".toList
      else
        .conn ("SSL error: ".toList ++ m)
  | .httpFailure s t => .api s t (jiraApiDefaultMsg s t)
  | .requestFailure m => .conn ("Network error: ".toList ++ m)
  | .otherFailure m => .api 500 m ("Unexpected error: ".toList ++ m)
  | .jira e => .api 500 e.message ("Unexpected error: ".toList ++ e.message)
  | .valueErr m => .api 500 m ("Unexpected error: ".toList ++ m)

/-- Observable outcome of a retry loop: the returned value or the raised
`last_exception` (`none` when the loop body never ran), together with the
sleeps performed and the number of loop iterations executed. -/
structure LoopOut (α : Type) where
  result : Except (Option JiraErr) α
  sleeps : List ℚ
  attempts : Nat

/-- The retry loop of `make_api_request` (jira_api.py lines 36-88):
`att i` is the outcome of iteration `i`; on failure, when further
iterations remain, sleep `delay` and double it. -/
def retryLoop (att : Nat → Except JiraErr α) :
    Nat → Nat → ℚ → Option JiraErr → LoopOut α
  | _, 0, _, lastE => ⟨.error lastE, [], 0⟩
  | i, 1, _, _ =>
    match att i with
    | .ok v => ⟨.ok v, [], 1⟩
    | .error e => ⟨.error (some e), [], 1⟩
  | i, fuel + 2, delay, _ =>
    match att i with
    | .ok v => ⟨.ok v, [], 1⟩
    | .error e =>
      let rest := retryLoop att (i + 1) (fuel + 1) (2 * delay) (some e)
      ⟨rest.result, delay :: rest.sleeps, rest.attempts + 1⟩

/-- What a whole call ultimately raises: a `JiraErr`, or the `TypeError`
produced by `raise last_exception` when `last_exception` is still `None`. -/
inductive FinalErr where
  | jira (e : JiraErr)
  | raisedNone
  deriving DecidableEq

/-- Map the loop outcome to the function's final result. -/
def finalize : Except (Option JiraErr) α → Except FinalErr α
  | .ok v => .ok v
  | .error (some e) => .error (.jira e)
  | .error none => .error .raisedNone

/-- The headers dict of `make_api_request` (jira_api.py lines 27-31),
built once, before the loop, independent of the method. -/
def requestHeaders (token : List Char) : List (List Char × List Char) :=
  [("Authorization".toList, "Bearer ".toList ++ token),
   ("Accept".toList, "application/json".toList),
   ("Content-Type".toList, "application/json".toList)]

/-- Observable behaviour of one `make_api_request` call. -/
structure RunResult where
  result : Except FinalErr (Option (List Char))
  attempts : Nat
  networkCalls : Nat
  sleeps : List ℚ
  headers : List (List Char × List Char)
  requestUrl : List Char

/-- `jira_api.make_api_request` (jira_api.py lines 14-88): validate the
url and token (re-raising their validation error), build headers and the
target url, run the retry loop, and raise `last_exception` on exhaustion.
`networkCalls` counts the attempts that actually reached `requests.get`
or `requests.post` (an unsupported method raises before any call). -/
def make_api_request (jira_url jira_token endpoint method : List Char)
    (payload : Option (List Char)) (tr : Nat → TransportEvent)
    (verify_ssl : Bool) (max_retries : Int) (retry_delay : ℚ) : RunResult :=
  match validate_url jira_url with
  | .error e => ⟨.error (.jira e), 0, 0, [], [], []⟩
  | .ok u =>
    match validate_token jira_token with
    | .error e => ⟨.error (.jira e), 0, 0, [], [], []⟩
    | .ok t =>
      let att := fun i => (tryBody endpoint method (tr i)).mapError (exceptChain verify_ssl)
      let out := retryLoop att 0 max_retries.toNat retry_delay none
      ⟨finalize out.result, out.attempts,
       if method = "GET".toList ∨ method = "POST".toList then out.attempts else 0,
       out.sleeps, requestHeaders t, u ++ "/rest/api/2/".toList ++ endpoint⟩

/-- The fixed field projection of `search_issues` (jira_api.py line 111). -/
def searchFields : List Char :=
  "summary,status,assignee,reporter,priority,created,updated".toList

/-- The headers dict of `search_issues` (jira_api.py lines 103-106):
authorization and accept only, no content type. -/
def searchHeaders (token : List Char) : List (List Char × List Char) :=
  [("Authorization".toList, "Bearer ".toList ++ token),
   ("Accept".toList, "application/json".toList)]

/-- The `try` block of one attempt of `search_issues`
(jira_api.py lines 117-133): always a GET, the 404 branch carries the
search-specific message, and the body is returned without a 204 case. -/
def searchTryBody (ev : TransportEvent) : Except Raised (List Char) :=
  match ev with
  | .resp status text body =>
    if status = 401 then
      .error (.jira (.auth "Invalid credentials. Please check your Jira token.".toList))
    else if status = 403 then
      .error (.jira (.auth "Access forbidden. Please check your permissions.".toList))
    else if status = 404 then
      .error (.jira (.api 404 text "Search endpoint not found".toList))
    else if 400 ≤ status then
      .error (.jira (.api status text (jiraApiDefaultMsg status text)))
    else
      .ok body
  | .timeout => .error .timeout
  | .connFailure => .error .connFailure
  | .sslFailure m => .error (.sslFailure m)
  | .httpFailure s t => .error (.httpFailure s t)
  | .requestFailure m => .error (.requestFailure m)
  | .otherFailure m => .error (.otherFailure m)

/-- The `except` chain of `search_issues` (jira_api.py lines 135-149):
identical to the one of `make_api_request` except for the timeout text. -/
def searchExceptChain (verify_ssl : Bool) : Raised → JiraErr
  | .timeout => .conn "Search request timed out. Please try again.".toList
  | .connFailure =>
      .conn "Failed to connect to Jira. Please check the URL and your network connection.".toList
  | .sslFailure m =>
      if verify_ssl then
        .conn "SSL certificate verification failed. Use --no-verify-ssl to bypass.".toList
      else
        .conn ("SSL error: ".toList ++ m)
  | .httpFailure s t => .api s t (jiraApiDefaultMsg s t)
  | .requestFailure m => .conn ("Network error: ".toList ++ m)
  | .otherFailure m => .api 500 m ("Unexpected error: ".toList ++ m)
  | .jira e => .api 500 e.message ("Unexpected error: ".toList ++ e.message)
  | .valueErr m => .api 500 m ("Unexpected error: ".toList ++ m)

/-- The retry loop of `search_issues` (jira_api.py lines 116-158): same
shape as the one of `make_api_request`, but every sleep is the constant
`time.sleep(1)` and no delay state is kept. -/
def searchLoop (att : Nat → Except JiraErr α) :
    Nat → Nat → Option JiraErr → LoopOut α
  | _, 0, lastE => ⟨.error lastE, [], 0⟩
  | i, 1, _ =>
    match att i with
    | .ok v => ⟨.ok v, [], 1⟩
    | .error e => ⟨.error (some e), [], 1⟩
  | i, fuel + 2, _ =>
    match att i with
    | .ok v => ⟨.ok v, [], 1⟩
    | .error e =>
      let rest := searchLoop att (i + 1) (fuel + 1) (some e)
      ⟨rest.result, (1 : ℚ) :: rest.sleeps, rest.attempts + 1⟩

/-- Observable behaviour of one `search_issues` call. -/
structure SearchRun where
  result : Except FinalErr (List Char)
  attempts : Nat
  sleeps : List ℚ
  headers : List (List Char × List Char)
  requestUrl : List Char
  params : List (List Char × List Char)
  httpMethod : List Char

/-- `jira_api.search_issues` (jira_api.py lines 91-158): validate the url
and token, target the fixed `search` endpoint with the `jql` and `fields`
query parameters via `requests.get`, and retry with a constant 1 second
delay. -/
def search_issues (jira_url jira_token jql_query : List Char)
    (tr : Nat → TransportEvent) (verify_ssl : Bool) (max_retries : Int) : SearchRun :=
  match validate_url jira_url with
  | .error e => ⟨.error (.jira e), 0, [], [], [], [], []⟩
  | .ok u =>
    match validate_token jira_token with
    | .error e => ⟨.error (.jira e), 0, [], [], [], [], []⟩
    | .ok t =>
      let att := fun i => (searchTryBody (tr i)).mapError (searchExceptChain verify_ssl)
      let out := searchLoop att 0 max_retries.toNat none
      ⟨finalize out.result, out.attempts, out.sleeps, searchHeaders t,
       u ++ "/rest/api/2/search".toList,
       [("jql".toList, jql_query), ("fields".toList, searchFields)],
       "GET".toList⟩

/- Loop lemmas shared by the retry theorems. -/

theorem retryLoop_allFail {α : Type} (att : Nat → Except JiraErr α) (e : JiraErr)
    (h : ∀ i, att i = .error e) :
    ∀ fuel, 1 ≤ fuel → ∀ i d lastE,
      (retryLoop att i fuel d lastE).result = .error (some e)
      ∧ (retryLoop att i fuel d lastE).attempts = fuel
      ∧ (retryLoop att i fuel d lastE).sleeps.length = fuel - 1 := by
  intro fuel
  induction fuel with
  | zero => intro h0; omega
  | succ n ih =>
    intro _ i d lastE
    match n with
    | 0 => simp [retryLoop, h i]
    | m + 1 =>
      have hrec := ih (by omega) (i + 1) (2 * d) (some e)
      simp only [retryLoop, h i]
      exact ⟨hrec.1, by rw [hrec.2.1], by simp [hrec.2.2]⟩

theorem searchLoop_sleeps_one {α : Type} (att : Nat → Except JiraErr α) :
    ∀ fuel i lastE q, q ∈ (searchLoop att i fuel lastE).sleeps → q = 1 := by
  intro fuel
  induction fuel with
  | zero => intro i lastE q hq; simp [searchLoop] at hq
  | succ n ih =>
    intro i lastE q hq
    match n with
    | 0 =>
      unfold searchLoop at hq
      rcases hatt : att i with v | e <;> rw [hatt] at hq <;> simp at hq
    | m + 1 =>
      unfold searchLoop at hq
      rcases hatt : att i with e | v <;> rw [hatt] at hq
      · simp only [List.mem_cons] at hq
        rcases hq with hq | hq
        · exact hq
        · exact ih (i + 1) (some e) q hq
      · simp at hq

/-- C4 counterexample: the whitespace-only input `"   "` is empty after
trimming yet is not rejected (the emptiness test runs before `strip()`),
and `"x//"` loses both of its trailing slashes, not exactly one. -/
theorem c4_validate_url_cex :
    pyStrip "   ".toList = []
    ∧ isValidationFailure (validate_url "   ".toList) = false
    ∧ validate_url "   ".toList = .ok "https:".toList
    ∧ validate_url "x//".toList = .ok "https://x".toList :=
  ⟨rfl, rfl, rfl, rfl⟩

/-- C4 (amended): `validate_url` fails with a Validation error exactly when
the input is the empty string (whitespace-only input passes); otherwise it
trims the input, prepends `https://` when no `http://`/`https://` prefix is
present on the trimmed input, and strips every trailing `/` from the result,
so the result never has a trailing slash left to strip. -/
theorem c4_validate_url_amended (url : List Char) :
    (isValidationFailure (validate_url url) = true ↔ url = [])
    ∧ (url ≠ [] → startsWithScheme (pyStrip url) = true →
        validate_url url = .ok (pyRstripSlash (pyStrip url)))
    ∧ (url ≠ [] → startsWithScheme (pyStrip url) = false →
        validate_url url = .ok (pyRstripSlash ("https://".toList ++ pyStrip url)))
    ∧ (∀ v, validate_url url = .ok v → pyRstripSlash v = v) := by
  refine ⟨?_, ?_, ?_, fun v h => validate_url_ok_shape url v h⟩
  · by_cases h : url = [] <;> simp [validate_url, h, isValidationFailure]
  · intro h hs; simp [validate_url, h, hs]
  · intro h hs; simp [validate_url, h, hs]

/-- C4 witness: the amended statement evaluated at concrete inputs. -/
theorem c4_validate_url_witness :
    validate_url "example.com/".toList =
      .ok (pyRstripSlash ("https://".toList ++ pyStrip "example.com/".toList))
    ∧ isValidationFailure (validate_url []) = true :=
  ⟨(c4_validate_url_amended "example.com/".toList).2.2.1 (by decide) (by decide),
   (c4_validate_url_amended []).1.mpr rfl⟩

/-- C5 counterexample: `validate_url` is not idempotent.  The scheme-only
input `"http://"` normalizes to `"http:"`, which re-normalizes to
`"https://http:"`; and `"a /"` normalizes to `"https://a "`, whose trailing
space is trimmed away on the second pass. -/
theorem c5_idempotence_cex :
    validate_url "http://".toList = .ok "http:".toList
    ∧ validate_url "http:".toList = .ok "https://http:".toList
    ∧ "https://http:".toList ≠ "http:".toList
    ∧ validate_url "a /".toList = .ok "https://a ".toList
    ∧ validate_url "https://a ".toList = .ok "https://a".toList
    ∧ "https://a".toList ≠ "https://a ".toList :=
  ⟨rfl, rfl, by decide, rfl, rfl, by decide⟩

/-- C5 (amended): `validate_url` is idempotent on every input on which it
succeeds whose output still starts with `http://` or `https://` and is
unchanged by trimming: re-validating such an output returns it unchanged. -/
theorem c5_idempotent_amended (x y : List Char) (h : validate_url x = .ok y)
    (hs : startsWithScheme y = true) (ht : pyStrip y = y) :
    validate_url y = .ok y := by
  have hy : y ≠ [] := by
    intro he; rw [he] at hs; exact absurd hs (by decide)
  have hr : pyRstripSlash y = y := validate_url_ok_shape x y h
  simp [validate_url, hy, ht, hs, hr]

/-- C5 witness: the amended idempotence applied to the output of
`validate_url "example.com"`. -/
theorem c5_idempotent_witness :
    validate_url "https://example.com".toList = .ok "https://example.com".toList :=
  c5_idempotent_amended "example.com".toList "https://example.com".toList rfl rfl rfl

/-- C6: `validate_token` fails with a Validation error exactly when the
trimmed token is empty or shorter than 10 characters (both covered by
`length < 10`), and otherwise returns the trimmed token unchanged. -/
theorem c6_validate_token_spec (tok : List Char) :
    ((pyStrip tok).length < 10 → isValidationFailure (validate_token tok) = true)
    ∧ (10 ≤ (pyStrip tok).length → validate_token tok = .ok (pyStrip tok)) := by
  constructor
  · intro h
    by_cases he : pyStrip tok = []
    · simp [validate_token, he, isValidationFailure]
    · simp [validate_token, he, h, isValidationFailure]
  · intro h
    have he : pyStrip tok ≠ [] := by
      intro he; rw [he] at h; simp at h
    have hl : ¬(pyStrip tok).length < 10 := by omega
    simp [validate_token, he, hl]

/-- C6 witness: a 3-character token is rejected, a 15-character token is
returned trimmed and otherwise unchanged. -/
theorem c6_validate_token_witness :
    isValidationFailure (validate_token "abc".toList) = true
    ∧ validate_token " averyvalidtoken ".toList = .ok (pyStrip " averyvalidtoken ".toList) :=
  ⟨(c6_validate_token_spec "abc".toList).1 (by decide),
   (c6_validate_token_spec " averyvalidtoken ".toList).2 (by decide)⟩

/-- C1: with a transport returning 401 on every attempt and
`max_retries = 2`, `make_api_request` does make exactly `max_retries`
attempts, but the `JiraAuthError` raised by the 401 branch is caught by the
final `except Exception` clause and re-raised as
`JiraAPIError(500, ..., "Unexpected error: ...")`, not as an Auth error. -/
theorem c1_persistent_401_wrapped :
    (make_api_request "example.com".toList "averyvalidtoken".toList "issue".toList
        "GET".toList none (fun _ => .resp 401 [] []) true 2 1).attempts = 2
    ∧ (make_api_request "example.com".toList "averyvalidtoken".toList "issue".toList
        "GET".toList none (fun _ => .resp 401 [] []) true 2 1).result =
      .error (.jira (.api 500
        "Invalid credentials. Please check your Jira token.".toList
        "Unexpected error: Invalid credentials. Please check your Jira token.".toList)) :=
  ⟨rfl, rfl⟩

/-- C2: with `max_retries = 3`, a connection failure on the first two
attempts and a 200 response on the third, `make_api_request` returns the
success payload and sleeps exactly twice, for `base_delay` and then
`2 * base_delay`. -/
theorem c2_backoff_two_sleeps (u t uv tv ep : List Char) (pl : Option (List Char))
    (text body : List Char) (v : Bool) (d : ℚ) (tr : Nat → TransportEvent)
    (hu : validate_url u = .ok uv) (ht : validate_token t = .ok tv)
    (h0 : tr 0 = .connFailure) (h1 : tr 1 = .connFailure)
    (h2 : tr 2 = .resp 200 text body) :
    (make_api_request u t ep "GET".toList pl tr v 3 d).result = .ok (some body)
    ∧ (make_api_request u t ep "GET".toList pl tr v 3 d).sleeps = [d, 2 * d] := by
  have h3 : (3 : Int).toNat = 3 := rfl
  simp only [make_api_request, hu, ht, h3, retryLoop, h0, h1, h2, tryBody,
    exceptChain, Except.mapError, finalize]
  norm_num

/-- C2 witness transport: connection failures on attempts 0 and 1, then a
200 response carrying a payload. -/
def trC2 : Nat → TransportEvent
  | 0 => .connFailure
  | 1 => .connFailure
  | _ => .resp 200 [] "payload".toList

/-- C2 witness: the backoff statement evaluated at a concrete call. -/
theorem c2_backoff_witness :
    (make_api_request "example.com".toList "averyvalidtoken".toList "issue".toList
        "GET".toList none trC2 true 3 1).result = .ok (some "payload".toList)
    ∧ (make_api_request "example.com".toList "averyvalidtoken".toList "issue".toList
        "GET".toList none trC2 true 3 1).sleeps = [1, 2 * 1] :=
  c2_backoff_two_sleeps "example.com".toList "averyvalidtoken".toList
    "https://example.com".toList "averyvalidtoken".toList "issue".toList none
    [] "payload".toList true 1 trC2 rfl rfl rfl rfl rfl

/-- C3: with `max_retries = 1` and a 404 response, exactly one attempt is
made and no sleep occurs, but the error raised to the caller is not the
`JiraAPIError(404, "nf", "Resource not found: issue")` constructed at the
failure site: the `except Exception` clause re-wraps it as a 500 with a
different message. -/
theorem c3_single_attempt_wrapped :
    (make_api_request "example.com".toList "averyvalidtoken".toList "issue".toList
        "GET".toList none (fun _ => .resp 404 "nf".toList []) true 1 1).attempts = 1
    ∧ (make_api_request "example.com".toList "averyvalidtoken".toList "issue".toList
        "GET".toList none (fun _ => .resp 404 "nf".toList []) true 1 1).sleeps = []
    ∧ (make_api_request "example.com".toList "averyvalidtoken".toList "issue".toList
        "GET".toList none (fun _ => .resp 404 "nf".toList []) true 1 1).result =
      .error (.jira (.api 500 "Resource not found: issue".toList
        "Unexpected error: Resource not found: issue".toList)) :=
  ⟨rfl, rfl, rfl⟩

/-- C7 counterexample: the headers dict is built once, before the method
dispatch, so even a GET request carries `Content-Type: application/json`. -/
theorem c7_content_type_cex :
    ("Content-Type".toList, "application/json".toList) ∈
      (make_api_request "example.com".toList "averyvalidtoken".toList
        "myendpoint".toList "GET".toList none (fun _ => .resp 200 [] []) true 3 1).headers := by
  have h : (make_api_request "example.com".toList "averyvalidtoken".toList
      "myendpoint".toList "GET".toList none (fun _ => .resp 200 [] []) true 3 1).headers =
      requestHeaders "averyvalidtoken".toList := rfl
  rw [h]
  simp [requestHeaders]

/-- C7 (amended): for every call that passes validation, the request headers
are exactly the bearer-token authorization, `Accept: application/json` and
`Content-Type: application/json`, for every method (GET included). -/
theorem c7_headers_amended (u t uv tv ep method : List Char) (pl : Option (List Char))
    (tr : Nat → TransportEvent) (v : Bool) (n : Int) (d : ℚ)
    (hu : validate_url u = .ok uv) (ht : validate_token t = .ok tv) :
    (make_api_request u t ep method pl tr v n d).headers =
      [("Authorization".toList, "Bearer ".toList ++ tv),
       ("Accept".toList, "application/json".toList),
       ("Content-Type".toList, "application/json".toList)] := by
  simp [make_api_request, hu, ht, requestHeaders]

/-- C7 witness: the amended header statement at a concrete POST call. -/
theorem c7_headers_witness :
    (make_api_request "example.com".toList "averyvalidtoken".toList "issue".toList
        "POST".toList none (fun _ => .resp 200 [] []) true 3 1).headers =
      [("Authorization".toList, "Bearer ".toList ++ "averyvalidtoken".toList),
       ("Accept".toList, "application/json".toList),
       ("Content-Type".toList, "application/json".toList)] :=
  c7_headers_amended "example.com".toList "averyvalidtoken".toList
    "https://example.com".toList "averyvalidtoken".toList "issue".toList
    "POST".toList none (fun _ => .resp 200 [] []) true 3 1 rfl rfl

/-- C8: every `search_issues` call that passes validation issues a GET to
the fixed `search` endpoint with exactly the `jql` and the fixed
`fields=summary,status,assignee,reporter,priority,created,updated`
query parameters, and every sleep between failed attempts is the constant
1 second. -/
theorem c8_search_shape (u t uv tv jql : List Char) (tr : Nat → TransportEvent)
    (v : Bool) (n : Int)
    (hu : validate_url u = .ok uv) (ht : validate_token t = .ok tv) :
    (search_issues u t jql tr v n).httpMethod = "GET".toList
    ∧ (search_issues u t jql tr v n).requestUrl = uv ++ "/rest/api/2/search".toList
    ∧ (search_issues u t jql tr v n).params =
        [("jql".toList, jql), ("fields".toList, searchFields)]
    ∧ ∀ q ∈ (search_issues u t jql tr v n).sleeps, q = 1 := by
  refine ⟨?_, ?_, ?_, ?_⟩ <;> simp only [search_issues, hu, ht]
  · exact fun q hq => searchLoop_sleeps_one _ _ _ _ q hq

/-- C8 witness: the search-shape statement at a concrete call whose
transport fails every time (so two constant sleeps actually occur). -/
theorem c8_search_witness :
    (search_issues "example.com".toList "averyvalidtoken".toList "proj".toList
        (fun _ => .resp 500 [] []) true 3).httpMethod = "GET".toList
    ∧ (search_issues "example.com".toList "averyvalidtoken".toList "proj".toList
        (fun _ => .resp 500 [] []) true 3).params =
        [("jql".toList, "proj".toList), ("fields".toList, searchFields)] :=
  ⟨(c8_search_shape "example.com".toList "averyvalidtoken".toList
      "https://example.com".toList "averyvalidtoken".toList "proj".toList
      (fun _ => .resp 500 [] []) true 3 rfl rfl).1,
   (c8_search_shape "example.com".toList "averyvalidtoken".toList
      "https://example.com".toList "averyvalidtoken".toList "proj".toList
      (fun _ => .resp 500 [] []) true 3 rfl rfl).2.2.1⟩

/-- C9: an unsupported method (neither GET nor POST) never reaches the
transport, yet the full retry loop still runs: `max_retries` iterations,
`max_retries - 1` sleeps, and the final error is the `ValueError` wrapped
by `except Exception` into a status-500 `JiraAPIError` whose message names
the unsupported method. -/
theorem c9_unsupported_method (u t uv tv ep method : List Char) (pl : Option (List Char))
    (tr : Nat → TransportEvent) (v : Bool) (n : Int) (d : ℚ)
    (hu : validate_url u = .ok uv) (ht : validate_token t = .ok tv)
    (hg : method ≠ "GET".toList) (hp : method ≠ "POST".toList) (hn : 1 ≤ n) :
    (make_api_request u t ep method pl tr v n d).networkCalls = 0
    ∧ (make_api_request u t ep method pl tr v n d).attempts = n.toNat
    ∧ (make_api_request u t ep method pl tr v n d).sleeps.length = n.toNat - 1
    ∧ (make_api_request u t ep method pl tr v n d).result =
      .error (.jira (.api 500 ("Unsupported HTTP method: ".toList ++ method)
        ("Unexpected error: ".toList ++ ("Unsupported HTTP method: ".toList ++ method)))) := by
  have hm : ¬(method = "GET".toList ∨ method = "POST".toList) := by
    intro hc; rcases hc with hc | hc
    · exact hg hc
    · exact hp hc
  have hatt : ∀ i, (tryBody ep method (tr i)).mapError (exceptChain v) =
      .error (.api 500 ("Unsupported HTTP method: ".toList ++ method)
        ("Unexpected error: ".toList ++ ("Unsupported HTTP method: ".toList ++ method))) := by
    intro i
    unfold tryBody
    rw [if_neg hm]
    rfl
  have h1n : 1 ≤ n.toNat := by omega
  have hloop := retryLoop_allFail
    (fun i => (tryBody ep method (tr i)).mapError (exceptChain v)) _ hatt n.toNat h1n 0 d none
  refine ⟨?_, ?_, ?_, ?_⟩ <;> simp only [make_api_request, hu, ht]
  · rw [if_neg hm]
  · exact hloop.2.1
  · exact hloop.2.2
  · rw [hloop.1]
    rfl

/-- C9 witness: the unsupported-method statement at a concrete PUT call
with `max_retries = 2`. -/
theorem c9_unsupported_method_witness :
    (make_api_request "example.com".toList "averyvalidtoken".toList "issue".toList
        "PUT".toList none (fun _ => .resp 200 [] []) true 2 1).networkCalls = 0
    ∧ (make_api_request "example.com".toList "averyvalidtoken".toList "issue".toList
        "PUT".toList none (fun _ => .resp 200 [] []) true 2 1).attempts = (2 : Int).toNat
    ∧ (make_api_request "example.com".toList "averyvalidtoken".toList "issue".toList
        "PUT".toList none (fun _ => .resp 200 [] []) true 2 1).sleeps.length = (2 : Int).toNat - 1
    ∧ (make_api_request "example.com".toList "averyvalidtoken".toList "issue".toList
        "PUT".toList none (fun _ => .resp 200 [] []) true 2 1).result =
      .error (.jira (.api 500 ("Unsupported HTTP method: ".toList ++ "PUT".toList)
        ("Unexpected error: ".toList ++ ("Unsupported HTTP method: ".toList ++ "PUT".toList)))) :=
  c9_unsupported_method "example.com".toList "averyvalidtoken".toList
    "https://example.com".toList "averyvalidtoken".toList "issue".toList
    "PUT".toList none (fun _ => .resp 200 [] []) true 2 1 rfl rfl
    (by decide) (by decide) (by decide)

/-- C10: with valid credentials and `max_retries ≤ 0` the loop body never
runs, no request is issued and no sleep occurs, and `raise last_exception`
raises `None` (a `TypeError`), not a member of the error taxonomy. -/
theorem c10_raise_none (u t uv tv ep method : List Char) (pl : Option (List Char))
    (tr : Nat → TransportEvent) (v : Bool) (n : Int) (d : ℚ)
    (hu : validate_url u = .ok uv) (ht : validate_token t = .ok tv) (hn : n ≤ 0) :
    (make_api_request u t ep method pl tr v n d).result = .error .raisedNone
    ∧ (make_api_request u t ep method pl tr v n d).attempts = 0
    ∧ (make_api_request u t ep method pl tr v n d).sleeps = []
    ∧ (make_api_request u t ep method pl tr v n d).networkCalls = 0 := by
  have h0 : n.toNat = 0 := by omega
  refine ⟨?_, ?_, ?_, ?_⟩ <;> simp only [make_api_request, hu, ht, h0, retryLoop, finalize]
  by_cases hc : method = "GET".toList ∨ method = "POST".toList <;> simp [hc, retryLoop]

/-- C10 witness: the raise-`None` statement at a concrete call with
`max_retries = -1`. -/
theorem c10_raise_none_witness :
    (make_api_request "example.com".toList "averyvalidtoken".toList "issue".toList
        "GET".toList none (fun _ => .resp 200 [] []) true (-1) 1).result =
      .error .raisedNone
    ∧ (make_api_request "example.com".toList "averyvalidtoken".toList "issue".toList
        "GET".toList none (fun _ => .resp 200 [] []) true (-1) 1).attempts = 0
    ∧ (make_api_request "example.com".toList "averyvalidtoken".toList "issue".toList
        "GET".toList none (fun _ => .resp 200 [] []) true (-1) 1).sleeps = []
    ∧ (make_api_request "example.com".toList "averyvalidtoken".toList "issue".toList
        "GET".toList none (fun _ => .resp 200 [] []) true (-1) 1).networkCalls = 0 :=
  c10_raise_none "example.com".toList "averyvalidtoken".toList
    "https://example.com".toList "averyvalidtoken".toList "issue".toList
    "GET".toList none (fun _ => .resp 200 [] []) true (-1) 1 rfl rfl (by decide)
